import Mathlib

/-!
Shallow embedding of the go-sensors/sensironsgp30 driver.

Bytes are modelled as natural numbers; every place the Go code relies on the
`byte` type to bound a value, the model masks with `% 256`.  16-bit machine
integers are modelled with explicit `% 65536`.  Go float64 values are
modelled as rationals.  Fallible Go functions returning `(T, error)` become
`Except GoError T`; a `(*T, error)` result that can be `(nil, nil)` becomes
`Except GoError (Option T)`.  Cancellation (`ctx.Done()`) and transport
results are passed in explicitly as environment records, one select/IO
decision per field.
-/

set_option linter.unusedVariables false

namespace SGP30

/-! ## CRC-8 (sigurn/crc8 with Poly 0x31, Init 0xFF, RefIn/RefOut false, XorOut 0x00) -/

/-- One shift step of the non-reflected CRC-8 update with polynomial 0x31,
masked to a byte, as in the inner loop of `crc8.MakeTable`. -/
def crc8Step (c : Nat) : Nat :=
  if c &&& 0x80 ≠ 0 then ((c <<< 1) ^^^ 0x31) &&& 0xFF else (c <<< 1) &&& 0xFF

/-- The 256-entry table built by `crc8.MakeTable` for the parameters
Poly 0x31, Init 0xFF, RefIn false, RefOut false, XorOut 0x00: entry `n`
is the result of eight shift steps starting from `n`. -/
def checksumTable : List Nat :=
  (List.range 256).map (fun n => crc8Step^[8] n)

/-- Model of `crc8.Checksum(data, checksumTable)`: start from Init 0xFF,
update through the table per byte, and apply XorOut 0x00 at the end
(RefOut is false, so no reflection). -/
def checksum (data : List Nat) : Nat :=
  (data.foldl (fun c d => checksumTable.getD ((c ^^^ d) % 256) 0) 0xFF) ^^^ 0x00

/-- The CRC-8 algorithm exactly as the spec parameterizes it (polynomial
0x31, initial value 0xFF, no input/output reflection, XOR-out 0x00),
written table-free: per input byte, XOR the byte into the running value
and perform eight polynomial shift steps. -/
def crc8Sensiron (data : List Nat) : Nat :=
  data.foldl (fun c d => crc8Step^[8] ((c ^^^ d) % 256)) 0xFF

/-! ## Errors (pkg/errors wrapping, modelled structurally) -/

/-- Structural model of the error values the driver builds: base errors
from collaborators, the crc validation failure from `readWords` (carrying
the two data bytes, the transmitted checksum and the recomputed checksum),
and `errors.Wrap(cause, context)`. -/
inductive GoError : Type
  | msg (s : String)
  | checksumMismatch (data : List Nat) (expected : Nat) (actual : Nat)
  | wrap (context : String) (cause : GoError)
  deriving DecidableEq, Repr

deriving instance DecidableEq for Except

/-- Peel all `errors.Wrap` layers off an error, exposing the original cause. -/
def rootCause : GoError → GoError
  | .wrap _ e => rootCause e
  | e => e

/-! ## readWords -/

/-- The validation loop of `readWords`, one 3-byte group (2 data bytes,
big-endian, then the transmitted crc byte) at a time: recompute the crc
over the data bytes, fail on the first mismatch with the offending bytes
and both checksum values, otherwise assemble the 16-bit word and continue.
The caller always supplies a buffer whose length is a multiple of 3, so
the final catch-all case is unreachable there. -/
def parseWords : List Nat → Except GoError (List Nat)
  | b0 :: b1 :: expectedCrc :: rest =>
    let wordBytes := [b0, b1]
    let actualCrc := checksum wordBytes
    if actualCrc ≠ expectedCrc then
      .error (.checksumMismatch wordBytes expectedCrc actualCrc)
    else
      match parseWords rest with
      | .error e => .error e
      | .ok ws => .ok ((b0 <<< 8 ||| b1) :: ws)
  | _ => .ok []

/-- Model of `readWords(port, words)`.  The port read either fails (its
error is returned unchanged) or fills the `words*3`-byte buffer allocated
with `make` (zero-initialized, so a short payload is zero-padded and an
overlong one truncated to the buffer size); each buffer cell is a Go
`byte`, hence the `% 256` mask.  Then the buffer is validated group by
group. -/
def readWords (words : Nat) (readResult : Except GoError (List Nat)) :
    Except GoError (List Nat) :=
  match readResult with
  | .error e => .error e
  | .ok raw =>
    parseWords (((raw.map (· % 256)) ++ List.replicate (3 * words) 0).take (3 * words))

/-! ## Concentrations and the measurement decoder -/

/-- Unit tags for concentration values (`units.PartPerMillion`,
`units.PartPerBillion`). -/
inductive ConcUnit : Type
  | ppm
  | ppb
  deriving DecidableEq, Repr

/-- A concentration amount: the raw integer count taken from the wire,
tagged with its unit and nothing else (`units.Concentration(raw) * unit`). -/
structure Concentration : Type where
  amount : Nat
  unit : ConcUnit
  deriving DecidableEq, Repr

/-- The `airQuality` record built by `measureAirQuality`. -/
structure airQuality : Type where
  CO2eq : Concentration
  TVOC : Concentration
  deriving DecidableEq, Repr

/-- Environment for one `measureAirQuality` call: the result of the
measure-request write, whether cancellation wins the 12ms select between
the write and the read, and the transport read result. -/
structure MeasureEnv : Type where
  writeErr : Option GoError
  cancelledDuringWait : Bool
  readResult : Except GoError (List Nat)
  deriving Repr

/-- Model of `measureAirQuality`: write `0x20 0x08`; a write error is
returned as-is; if cancellation fires during the wait, return `(nil, nil)`
(`.ok none`); otherwise read 2 words, wrapping any `readWords` error with
"failed to read air quality"; on success word 0 is CO2eq in ppm and word 1
is TVOC in ppb, raw counts. -/
def measureAirQuality (env : MeasureEnv) : Except GoError (Option airQuality) :=
  match env.writeErr with
  | some e => .error e
  | none =>
    if env.cancelledDuringWait then .ok none
    else
      match readWords 2 env.readResult with
      | .error e => .error (.wrap "failed to read air quality" e)
      | .ok data =>
        .ok (some { CO2eq := ⟨data.getD 0 0, .ppm⟩, TVOC := ⟨data.getD 1 0, .ppb⟩ })

/-! ## setHumidity -/

/-- Go float-to-integer conversion truncates toward zero. -/
def goTrunc (q : ℚ) : Int :=
  if 0 ≤ q then ⌊q⌋ else -⌊-q⌋

/-- Go conversion `uint16(f)` of a float64: truncate toward zero, then
wrap into 16 bits (two's complement wrap, i.e. modulo 2^16). -/
def uint16Of (q : ℚ) : Nat :=
  ((goTrunc q) % 65536).toNat

/-- The 5-byte set-humidity frame written by `setHumidity`: opcode
`0x20 0x61`, then `uint16(gramsPerCubicMeter * 256)` as two big-endian
bytes, then the crc over those two bytes. -/
def encodeSetHumidity (gramsPerCubicMeter : ℚ) : List Nat :=
  let fixedPointValue := uint16Of (gramsPerCubicMeter * 256)
  let humidityData := [(fixedPointValue >>> 8) % 256, fixedPointValue % 256]
  let humidityCRC := checksum humidityData
  [0x20, 0x61, humidityData.getD 0 0, humidityData.getD 1 0, humidityCRC]

/-- Environment for one `setHumidity` call: the result of the frame write
(the subsequent settling wait returns nil whether cancellation or the
timer fires first). -/
structure SetEnv : Type where
  writeErr : Option GoError
  deriving Repr

/-- Model of `setHumidity`: write the encoded frame; a write error is
returned as-is; otherwise wait (cancellable) and return nil. -/
def setHumidity (env : SetEnv) (gramsPerCubicMeter : ℚ) : Except GoError Unit :=
  match env.writeErr with
  | some e => .error e
  | none => .ok ()

/-! ## The command multiplexer (handleCommands) -/

/-- Gas name constant `TotalVolatileOrganicCompounds`. -/
def TotalVolatileOrganicCompounds : String := "TVOC"

/-- Gas name constant `CarbonDioxideEquivalent`. -/
def CarbonDioxideEquivalent : String := "CO2eq"

/-- A `gas.Concentration` value published on the output channel. -/
structure GasConcentration : Type where
  gas : String
  amount : Concentration
  deriving DecidableEq, Repr

/-- The two command kinds flowing through the command channel: a
relative-humidity update (already converted to absolute humidity in
grams per cubic meter) and the measurement trigger. -/
inductive Command : Type
  | relativeHumidity (gramsPerCubicMeter : ℚ)
  | requestAirQuality
  deriving Repr

/-- Environment for one iteration of the `handleCommands` loop: which
branch each `select` takes (cancellation or progress) and the transport
results used by the command being processed. -/
structure CmdEnv : Type where
  ctxDoneAtLoop : Bool
  writeErr : Option GoError
  cancelledDuringWait : Bool
  readResult : Except GoError (List Nat)
  ctxDoneBeforeTvocSend : Bool
  ctxDoneBeforeCo2Send : Bool
  deriving Repr

/-- Outcome of one `handleCommands` loop iteration, together with the
readings published to the gases channel during it: continue looping,
return from the goroutine with an error value (nil modelled as `none`),
or a Go runtime panic. -/
inductive StepResult : Type
  | next (emits : List GasConcentration)
  | ret (emits : List GasConcentration) (err : Option GoError)
  | panicked (emits : List GasConcentration) (reason : String)
  deriving DecidableEq, Repr

/-- One iteration of the `handleCommands` loop.  The top-level select
either observes cancellation (return nil) or receives a command.  A
humidity command runs `setHumidity`, failing the session with a
"failed to set humidity" wrap on error.  A measurement command runs
`measureAirQuality`, failing with a "failed to measure air quality" wrap
on error; when it returns `(nil, nil)` (cancellation during the wait) the
Go code dereferences the nil `readings` pointer while building the TVOC
concentration, which is a runtime panic; otherwise it publishes the TVOC
reading then the CO2eq reading, each send individually racing
cancellation (return nil, abandoning the rest of the cycle). -/
def handleCommandStep (env : CmdEnv) (c : Command) : StepResult :=
  if env.ctxDoneAtLoop then .ret [] none
  else
    match c with
    | .relativeHumidity h =>
      match setHumidity ⟨env.writeErr⟩ h with
      | .error e => .ret [] (some (.wrap "failed to set humidity" e))
      | .ok _ => .next []
    | .requestAirQuality =>
      match measureAirQuality ⟨env.writeErr, env.cancelledDuringWait, env.readResult⟩ with
      | .error e => .ret [] (some (.wrap "failed to measure air quality" e))
      | .ok none =>
        .panicked [] "runtime error: invalid memory address or nil pointer dereference"
      | .ok (some readings) =>
        let tvoc : GasConcentration := ⟨TotalVolatileOrganicCompounds, readings.TVOC⟩
        if env.ctxDoneBeforeTvocSend then .ret [] none
        else
          let co2eq : GasConcentration := ⟨CarbonDioxideEquivalent, readings.CO2eq⟩
          if env.ctxDoneBeforeCo2Send then .ret [tvoc] none
          else .next [tvoc, co2eq]

/-- The readings a single loop iteration publishes, whatever its outcome. -/
def stepEmits (env : CmdEnv) (c : Command) : List GasConcentration :=
  match handleCommandStep env c with
  | .next emits => emits
  | .ret emits _ => emits
  | .panicked emits _ => emits

/-- Outcome of running the `handleCommands` loop over a schedule of
commands: the goroutine returned, panicked, or is still waiting for the
next command. -/
inductive LoopOutcome : Type
  | finished (err : Option GoError)
  | panicked (reason : String)
  | pending
  deriving DecidableEq, Repr

/-- The `handleCommands` loop over a finite schedule: process commands in
order, accumulating the published readings in order, until an iteration
returns or panics (or the schedule is exhausted with the loop still
running). -/
def handleCommands : List (CmdEnv × Command) → List GasConcentration × LoopOutcome
  | [] => ([], .pending)
  | (env, c) :: rest =>
    match handleCommandStep env c with
    | .next emits =>
      let (trace, outcome) := handleCommands rest
      (emits ++ trace, outcome)
    | .ret emits err => (emits, .finished err)
    | .panicked emits reason => (emits, .panicked reason)

/-! ## HandleRelativeHumidity -/

/-- Observable outcome of one `HandleRelativeHumidity` call under Go
select/channel semantics. -/
inductive HrOutcome : Type
  | returnedNil
  | panicked
  | blocked
  deriving DecidableEq, Repr

/-- Model of `Sensor.HandleRelativeHumidity`: a select racing
`ctx.Done()` against a send on the commands channel, then `return nil`.
A send on a closed channel counts as ready in Go and panics when chosen;
a send with a ready receiver succeeds; with neither case ready the call
blocks.  When both cases are ready, `pickDone` says which one the Go
runtime chooses. -/
def handleRelativeHumidity (ctxDone commandsClosed receiverReady pickDone : Bool) :
    HrOutcome :=
  let sendReady := commandsClosed || receiverReady
  if ctxDone && sendReady then
    if pickDone then .returnedNil
    else if commandsClosed then .panicked else .returnedNil
  else if ctxDone then .returnedNil
  else if sendReady then
    if commandsClosed then .panicked else .returnedNil
  else .blocked

/-! ## The run loop (Sensor.Run) -/

/-- Environment for one iteration of the `Sensor.Run` loop: the result of
`portFactory.Open()`, the aggregate session error from `group.Wait()`
(possibly nil), and whether the outer context is already cancelled when
the reconnect select runs. -/
structure RunEnv : Type where
  openErr : Option GoError
  sessionErr : Option GoError
  ctxDoneAtWait : Bool
  deriving Repr

/-- Observable result of running `Sensor.Run` against a schedule of
session environments: the return value when it returned (`none` while it
is still looping after the schedule is exhausted), how many `Open()`
calls it made, the errors passed to the recovery policy in order, and
whether the deferred `close(s.gases)` has run (it runs exactly when `Run`
returns). -/
structure RunResult : Type where
  outcome : Option (Option GoError)
  openCalls : Nat
  policyConsults : List (Option GoError)
  gasesClosed : Bool
  deriving Repr

/-- Model of `Sensor.Run`: each iteration opens the port (an open failure
returns immediately, wrapped as "failed to open port"); otherwise the
session runs to its aggregate error, the recovery policy (when supplied)
is consulted and a true verdict returns that error; then the reconnect
select returns nil if the outer context is done, and otherwise waits the
reconnect timeout and loops. -/
def sensorRun (policy : Option (Option GoError → Bool)) :
    List RunEnv → RunResult
  | [] => ⟨none, 0, [], false⟩
  | env :: rest =>
    match env.openErr with
    | some e => ⟨some (some (.wrap "failed to open port" e)), 1, [], true⟩
    | none =>
      let e := env.sessionErr
      match policy with
      | some p =>
        if p e then ⟨some e, 1, [e], true⟩
        else if env.ctxDoneAtWait then ⟨some none, 1, [e], true⟩
        else
          let r := sensorRun (some p) rest
          ⟨r.outcome, r.openCalls + 1, e :: r.policyConsults, r.gasesClosed⟩
      | none =>
        if env.ctxDoneAtWait then ⟨some none, 1, [], true⟩
        else
          let r := sensorRun none rest
          ⟨r.outcome, r.openCalls + 1, r.policyConsults, r.gasesClosed⟩

/-! ## Spec-side definitions and concrete test inputs -/

/-- Spec-side encoder for a measurement reply: each 16-bit word becomes
its two big-endian data bytes followed by its correct CRC-8 checksum
byte. -/
def encodeWords : List Nat → List Nat
  | [] => []
  | w :: ws => (w / 256) :: (w % 256) :: crc8Sensiron [w / 256, w % 256] :: encodeWords ws

/-- A well-formed 2-word reply buffer: word 0 (CO2eq) is 1, word 1 (TVOC)
is 2, both with correct checksums. -/
def bufGood : List Nat := [0x00, 0x01, 0xB0, 0x00, 0x02, 0xE3]

/-- Handler environment for a fully successful measurement cycle over
`bufGood`: no cancellation anywhere, all transport calls succeed. -/
def envGood : CmdEnv := ⟨false, none, false, .ok bufGood, false, false⟩

/-- Handler environment where everything succeeds except that
cancellation wins the select between the TVOC publish and the CO2eq
publish. -/
def envOne : CmdEnv := ⟨false, none, false, .ok bufGood, false, true⟩

/-- Handler environment where cancellation fires during the wait between
the measure-request write and the reply read. -/
def envCancel : CmdEnv := ⟨false, none, true, .ok [], false, false⟩

/-- A placeholder transport-layer error. -/
def eBoom : GoError := .msg "boom"

/-- The reply buffer of the bad-CRC unit test: both groups carry
checksum byte 0, which is wrong for their data bytes. -/
def bufBad : List Nat := [0x01, 0x02, 0x00, 0x03, 0x04, 0x00]

/-- Handler environment whose reply read yields the bad-CRC buffer. -/
def envBad : CmdEnv := ⟨false, none, false, .ok bufBad, false, false⟩

/-- A recovery policy that always terminates. -/
def policyTrue : Option GoError → Bool := fun _ => true

/-- A recovery policy that always reconnects. -/
def policyFalse : Option GoError → Bool := fun _ => false

/-- A run iteration whose open succeeds, whose session fails with
`eBoom`, and whose reconnect select is not cancelled. -/
def envSession : RunEnv := ⟨none, some eBoom, false⟩

/-- A run iteration whose open succeeds, whose session fails with
`eBoom`, and whose reconnect select observes outer cancellation. -/
def envSessionDone : RunEnv := ⟨none, some eBoom, true⟩

/-- A run iteration whose open fails with `eBoom`. -/
def envOpenFail : RunEnv := ⟨some eBoom, none, false⟩

/-! ## Helper lemmas -/

/-- Looking up the generated crc table at an in-range index gives eight
shift steps from the index. -/
lemma checksumTable_getD (m : Nat) (hm : m < 256) :
    checksumTable.getD m 0 = crc8Step^[8] m := by
  simp [checksumTable, List.getD_eq_getElem?_getD, List.getElem?_map, List.getElem?_range, hm]

/-- The table-driven checksum of the source equals the table-free CRC-8
algorithm with the spec's parameterization. -/
lemma checksum_eq_crc8Sensiron (data : List Nat) : checksum data = crc8Sensiron data := by
  have aux : ∀ (l : List Nat) (c : Nat),
      l.foldl (fun c d => checksumTable.getD ((c ^^^ d) % 256) 0) c =
        l.foldl (fun c d => crc8Step^[8] ((c ^^^ d) % 256)) c := by
    intro l
    induction l with
    | nil => intro c; rfl
    | cons d rest ih =>
      intro c
      simp only [List.foldl_cons]
      rw [checksumTable_getD _ (Nat.mod_lt _ (by norm_num))]
      exact ih _
  unfold checksum crc8Sensiron
  rw [aux, Nat.xor_zero]

/-- One crc shift step always produces a byte. -/
lemma crc8Step_lt (c : Nat) : crc8Step c < 256 := by
  unfold crc8Step
  split <;> exact Nat.lt_succ_of_le Nat.and_le_right

/-- Eight crc shift steps always produce a byte. -/
lemma crc8Step_iterate_lt (x : Nat) : crc8Step^[8] x < 256 := by
  rw [Function.iterate_succ_apply']
  exact crc8Step_lt _

/-- The CRC-8 of any byte sequence is a byte. -/
lemma crc8Sensiron_lt (data : List Nat) : crc8Sensiron data < 256 := by
  have aux : ∀ (l : List Nat) (c : Nat), c < 256 →
      l.foldl (fun c d => crc8Step^[8] ((c ^^^ d) % 256)) c < 256 := by
    intro l
    induction l with
    | nil => intro c hc; exact hc
    | cons d rest ih =>
      intro c hc
      simp only [List.foldl_cons]
      exact ih _ (crc8Step_iterate_lt _)
  exact aux data 0xFF (by norm_num)

/-- Go conversion of a positive float to uint16 yields less than 2^16. -/
lemma uint16Of_lt (q : ℚ) : uint16Of q < 65536 := by
  unfold uint16Of
  have h1 : goTrunc q % 65536 < 65536 := Int.emod_lt_of_pos _ (by norm_num)
  have h2 : (0 : Int) ≤ goTrunc q % 65536 := Int.emod_nonneg _ (by norm_num)
  omega

/-- The uint16 conversion, seen back in the integers, is the truncated
value modulo 2^16. -/
lemma uint16Of_cast (q : ℚ) : (uint16Of q : Int) = goTrunc q % 65536 := by
  unfold uint16Of
  exact Int.toNat_of_nonneg (Int.emod_nonneg _ (by norm_num))

/-- The set-humidity frame, spelled with division and the table-free
CRC-8: opcode, big-endian fixed-point bytes, checksum. -/
lemma encodeSetHumidity_eq (h : ℚ) :
    encodeSetHumidity h =
      [0x20, 0x61, uint16Of (h * 256) / 256, uint16Of (h * 256) % 256,
       crc8Sensiron [uint16Of (h * 256) / 256, uint16Of (h * 256) % 256]] := by
  have hlt : uint16Of (h * 256) < 65536 := uint16Of_lt _
  have hsr : uint16Of (h * 256) >>> 8 = uint16Of (h * 256) / 256 := by
    rw [Nat.shiftRight_eq_div_pow]
  have hdiv : uint16Of (h * 256) / 256 % 256 = uint16Of (h * 256) / 256 := by omega
  have hmod : uint16Of (h * 256) % 256 % 256 = uint16Of (h * 256) % 256 := by omega
  simp only [encodeSetHumidity, List.getD_cons_zero, List.getD_cons_succ,
    checksum_eq_crc8Sensiron, hsr, hdiv, hmod]

/-- Reassembling the big-endian bytes of a value with shift-or recovers
the value. -/
lemma lor_byte (w : Nat) : ((w / 256) <<< 8) ||| (w % 256) = w := by
  have h256 : (2 : Nat) ^ 8 = 256 := by norm_num
  have h1 : (w / 256) <<< 8 = 2 ^ 8 * (w / 256) := by
    rw [Nat.shiftLeft_eq]
    ring
  have h2 : w % 256 < 2 ^ 8 := by
    rw [h256]
    exact Nat.mod_lt _ (by norm_num)
  rw [h1, ← Nat.mul_add_lt_is_or h2 (w / 256), h256]
  omega

/-- On a byte-valued buffer of the exact allocated size, `readWords`
reduces to the validation loop. -/
lemma readWords_ok_buf (n : Nat) (buf : List Nat) (hlen : buf.length = 3 * n)
    (hb : ∀ b ∈ buf, b < 256) : readWords n (.ok buf) = parseWords buf := by
  simp only [readWords]
  have hmap : buf.map (· % 256) = buf := by
    conv_rhs => rw [← List.map_id buf]
    exact List.map_congr_left (fun b hbb => Nat.mod_eq_of_lt (hb b hbb))
  rw [hmap, ← hlen, List.take_left]

/-- Characterization of the validation loop on a well-formed buffer: it
fails exactly when some 3-byte group's transmitted checksum differs from
the recomputed one, and the error then names an offending group's data
bytes together with both checksum values. -/
lemma parseWords_spec : ∀ (n : Nat) (buf : List Nat), buf.length = 3 * n →
    ((∃ e, parseWords buf = .error e) ↔
      ∃ i, i < n ∧
        checksum [buf.getD (3 * i) 0, buf.getD (3 * i + 1) 0] ≠ buf.getD (3 * i + 2) 0) ∧
    (∀ e, parseWords buf = .error e →
      ∃ i, i < n ∧
        checksum [buf.getD (3 * i) 0, buf.getD (3 * i + 1) 0] ≠ buf.getD (3 * i + 2) 0 ∧
        e = .checksumMismatch [buf.getD (3 * i) 0, buf.getD (3 * i + 1) 0]
              (buf.getD (3 * i + 2) 0)
              (checksum [buf.getD (3 * i) 0, buf.getD (3 * i + 1) 0])) := by
  intro n
  induction n with
  | zero =>
    intro buf hlen
    have hnil : buf = [] := List.length_eq_zero.mp (by omega)
    subst hnil
    refine ⟨⟨?_, ?_⟩, ?_⟩
    · rintro ⟨e, he⟩
      simp [parseWords] at he
    · rintro ⟨i, hi, _⟩
      omega
    · intro e he
      simp [parseWords] at he
  | succ m ih =>
    intro buf hlen
    rcases buf with _ | ⟨b0, _ | ⟨b1, _ | ⟨c, rest⟩⟩⟩
    · simp at hlen
    · simp at hlen; omega
    · simp at hlen; omega
    · have hrest : rest.length = 3 * m := by
        simp at hlen
        omega
      obtain ⟨ihiff, iherr⟩ := ih rest hrest
      have hg0 : ∀ i : Nat,
          (b0 :: b1 :: c :: rest).getD (3 * (i + 1)) 0 = rest.getD (3 * i) 0 := by
        intro i
        have h3 : 3 * (i + 1) = 3 * i + 1 + 1 + 1 := by ring
        rw [h3]
        simp [List.getD_cons_succ]
      have hg1 : ∀ i : Nat,
          (b0 :: b1 :: c :: rest).getD (3 * (i + 1) + 1) 0 = rest.getD (3 * i + 1) 0 := by
        intro i
        have h3 : 3 * (i + 1) + 1 = 3 * i + 1 + 1 + 1 + 1 := by ring
        rw [h3]
        simp [List.getD_cons_succ]
      have hg2 : ∀ i : Nat,
          (b0 :: b1 :: c :: rest).getD (3 * (i + 1) + 2) 0 = rest.getD (3 * i + 2) 0 := by
        intro i
        have h3 : 3 * (i + 1) + 2 = 3 * i + 2 + 1 + 1 + 1 := by ring
        rw [h3]
        simp [List.getD_cons_succ]
      by_cases hc : checksum [b0, b1] = c
      · cases hrw : parseWords rest with
        | error f =>
          have hpw : parseWords (b0 :: b1 :: c :: rest) = .error f := by
            simp [parseWords, hc, hrw]
          refine ⟨⟨?_, ?_⟩, ?_⟩
          · intro _
            obtain ⟨i, hi, hmm⟩ := ihiff.mp ⟨f, hrw⟩
            refine ⟨i + 1, by omega, ?_⟩
            rw [hg0 i, hg1 i, hg2 i]
            exact hmm
          · intro _
            exact ⟨f, hpw⟩
          · intro e he
            rw [hpw] at he
            injection he with hef
            subst hef
            obtain ⟨i, hi, hmm, hshape⟩ := iherr f hrw
            refine ⟨i + 1, by omega, ?_, ?_⟩
            · rw [hg0 i, hg1 i, hg2 i]
              exact hmm
            · rw [hg0 i, hg1 i, hg2 i]
              exact hshape
        | ok ws =>
          have hpw : parseWords (b0 :: b1 :: c :: rest) = .ok ((b0 <<< 8 ||| b1) :: ws) := by
            simp [parseWords, hc, hrw]
          refine ⟨⟨?_, ?_⟩, ?_⟩
          · rintro ⟨e, he⟩
            rw [hpw] at he
            exact absurd he (by simp)
          · rintro ⟨i, hi, hmm⟩
            rcases i with _ | j
            · have hmm0 : checksum [b0, b1] ≠ c := by simpa using hmm
              exact absurd hc hmm0
            · rw [hg0 j, hg1 j, hg2 j] at hmm
              obtain ⟨e, he⟩ := ihiff.mpr ⟨j, by omega, hmm⟩
              rw [hrw] at he
              exact absurd he (by simp)
          · intro e he
            rw [hpw] at he
            exact absurd he (by simp)
      · have hpw : parseWords (b0 :: b1 :: c :: rest) =
            .error (.checksumMismatch [b0, b1] c (checksum [b0, b1])) := by
          simp [parseWords, hc]
        refine ⟨⟨?_, ?_⟩, ?_⟩
        · intro _
          refine ⟨0, by omega, ?_⟩
          simpa using hc
        · intro _
          exact ⟨_, hpw⟩
        · intro e he
          rw [hpw] at he
          injection he with hef
          refine ⟨0, by omega, ?_, ?_⟩
          · simpa using hc
          · rw [← hef]
            simp

/-- The spec-side encoder produces three bytes per word. -/
lemma encodeWords_length : ∀ ws : List Nat, (encodeWords ws).length = 3 * ws.length := by
  intro ws
  induction ws with
  | nil => rfl
  | cons w ws ih => simp [encodeWords, ih]; ring

/-- For 16-bit words the spec-side encoder emits only bytes. -/
lemma encodeWords_bytes : ∀ ws : List Nat, (∀ w ∈ ws, w < 65536) →
    ∀ b ∈ encodeWords ws, b < 256 := by
  intro ws
  induction ws with
  | nil => intro _ b hb; simp [encodeWords] at hb
  | cons w ws ih =>
    intro hw b hb
    have hW : w < 65536 := hw w (by simp)
    simp only [encodeWords, List.mem_cons] at hb
    rcases hb with hb | hb | hb | hb
    · omega
    · omega
    · rw [hb]; exact crc8Sensiron_lt _
    · exact ih (fun x hx => hw x (by simp [hx])) b hb

/-- The validation loop inverts the spec-side encoder. -/
lemma parseWords_encodeWords : ∀ ws : List Nat, parseWords (encodeWords ws) = .ok ws := by
  intro ws
  induction ws with
  | nil => rfl
  | cons w ws ih =>
    simp [encodeWords, parseWords, checksum_eq_crc8Sensiron, ih, lor_byte]

/-! ## Claim theorems -/

/-- C1: when cancellation fires between the measure-request write and the
reply read, `measureAirQuality` returns no reading and no error, as the
claim says; but the command handler then dereferences the nil reading
pointer while building the TVOC concentration, so instead of neither
failing nor publishing, it publishes nothing and panics. -/
theorem handleCommands_nil_deref_on_cancel : ∀ env : CmdEnv,
    env.ctxDoneAtLoop = false → env.writeErr = none → env.cancelledDuringWait = true →
    measureAirQuality ⟨env.writeErr, env.cancelledDuringWait, env.readResult⟩ = .ok none ∧
    handleCommandStep env .requestAirQuality =
      .panicked [] "runtime error: invalid memory address or nil pointer dereference" := by
  intro env h1 h2 h3
  have hm : measureAirQuality ⟨env.writeErr, env.cancelledDuringWait, env.readResult⟩ =
      .ok none := by
    simp [measureAirQuality, h2, h3]
  refine ⟨hm, ?_⟩
  simp [handleCommandStep, h1, hm]

/-- Witness for C1 at the concrete cancelled-mid-measurement environment. -/
theorem handleCommands_nil_deref_on_cancel_witness :
    (envCancel.ctxDoneAtLoop = false ∧ envCancel.writeErr = none ∧
      envCancel.cancelledDuringWait = true) ∧
    measureAirQuality ⟨envCancel.writeErr, envCancel.cancelledDuringWait,
      envCancel.readResult⟩ = .ok none ∧
    handleCommandStep envCancel .requestAirQuality =
      .panicked [] "runtime error: invalid memory address or nil pointer dereference" :=
  ⟨⟨rfl, rfl, rfl⟩, handleCommands_nil_deref_on_cancel envCancel rfl rfl rfl⟩

/-- C2 counterexample: a cycle in which cancellation wins the select
between the TVOC publish and the CO2eq publish publishes exactly one
reading, refuting "never exactly one". -/
theorem handleCommands_single_publish_counterexample :
    handleCommandStep envOne .requestAirQuality =
      .ret [⟨TotalVolatileOrganicCompounds, ⟨2, .ppb⟩⟩] none ∧
    (stepEmits envOne .requestAirQuality).length = 1 := by
  constructor
  · decide
  · decide

/-- C2 amended: every processed command publishes zero or two readings,
except that exactly one reading (the TVOC one) is published when the
context is cancelled between the TVOC publish and the CO2eq publish. -/
theorem handleCommands_publish_count : ∀ (env : CmdEnv) (c : Command),
    (stepEmits env c).length = 0 ∨ (stepEmits env c).length = 2 ∨
    ((stepEmits env c).length = 1 ∧ env.ctxDoneBeforeCo2Send = true ∧
      ∃ conc : GasConcentration, stepEmits env c = [conc] ∧
        conc.gas = TotalVolatileOrganicCompounds) := by
  intro env c
  by_cases h1 : env.ctxDoneAtLoop
  · left
    simp [stepEmits, handleCommandStep, h1]
  · cases c with
    | relativeHumidity hq =>
      cases hw : env.writeErr with
      | some e => left; simp [stepEmits, handleCommandStep, setHumidity, h1, hw]
      | none => left; simp [stepEmits, handleCommandStep, setHumidity, h1, hw]
    | requestAirQuality =>
      cases hm : measureAirQuality ⟨env.writeErr, env.cancelledDuringWait, env.readResult⟩ with
      | error e => left; simp [stepEmits, handleCommandStep, h1, hm]
      | ok o =>
        cases o with
        | none => left; simp [stepEmits, handleCommandStep, h1, hm]
        | some readings =>
          by_cases h5 : env.ctxDoneBeforeTvocSend
          · left
            simp [stepEmits, handleCommandStep, h1, hm, h5]
          · by_cases h6 : env.ctxDoneBeforeCo2Send
            · right; right
              refine ⟨?_, by simpa using h6,
                ⟨⟨TotalVolatileOrganicCompounds, readings.TVOC⟩, ?_, rfl⟩⟩
              · simp [stepEmits, handleCommandStep, h1, hm, h5, h6]
              · simp [stepEmits, handleCommandStep, h1, hm, h5, h6]
            · right; left
              simp [stepEmits, handleCommandStep, h1, hm, h5, h6]

/-- C9: after the driver has stopped, `Run`'s deferred close of the
commands channel makes `HandleRelativeHumidity` execute a send on a
closed channel, which panics instead of returning nil; while the driver
is running (or the context already cancelled) the call does return nil. -/
theorem handleRelativeHumidity_outcomes :
    handleRelativeHumidity false true false false = .panicked ∧
    handleRelativeHumidity true false false false = .returnedNil ∧
    handleRelativeHumidity false false true false = .returnedNil :=
  ⟨rfl, rfl, rfl⟩

/-- C7: for every absolute humidity value the set-humidity frame is
exactly 5 bytes: opcode 0x20 0x61, the 16-bit fixed-point value (h times
256 truncated to an integer, taken into 16 bits) as two big-endian bytes,
and the CRC-8 (poly 0x31, init 0xFF, no reflection, xorout 0x00) of those
two data bytes. -/
theorem encodeSetHumidity_frame : ∀ h : ℚ,
    encodeSetHumidity h =
      [0x20, 0x61, uint16Of (h * 256) / 256, uint16Of (h * 256) % 256,
       crc8Sensiron [uint16Of (h * 256) / 256, uint16Of (h * 256) % 256]] ∧
    (encodeSetHumidity h).length = 5 ∧
    uint16Of (h * 256) < 65536 ∧
    (uint16Of (h * 256) : Int) = goTrunc (h * 256) % 65536 := by
  intro h
  refine ⟨encodeSetHumidity_eq h, ?_, uint16Of_lt _, uint16Of_cast _⟩
  rw [encodeSetHumidity_eq h]
  rfl

/-- C10: for absolute humidity of 256 g per cubic meter or more the
truncated fixed-point value no longer fits 16 bits, the transmitted value
wraps modulo 2^16 (so it differs from the true value), the frame still
carries a valid checksum over the wrapped bytes, and setHumidity raises
no error and performs no range check. -/
theorem setHumidity_wrap_modulo : ∀ h : ℚ, 256 ≤ h →
    65536 ≤ goTrunc (h * 256) ∧
    (uint16Of (h * 256) : Int) = goTrunc (h * 256) % 65536 ∧
    (uint16Of (h * 256) : Int) ≠ goTrunc (h * 256) ∧
    encodeSetHumidity h =
      [0x20, 0x61, uint16Of (h * 256) / 256, uint16Of (h * 256) % 256,
       crc8Sensiron [uint16Of (h * 256) / 256, uint16Of (h * 256) % 256]] ∧
    setHumidity ⟨none⟩ h = .ok () := by
  intro h hh
  have h1 : (65536 : ℚ) ≤ h * 256 := by linarith
  have h2 : 65536 ≤ goTrunc (h * 256) := by
    unfold goTrunc
    rw [if_pos (by linarith : (0 : ℚ) ≤ h * 256)]
    exact Int.le_floor.mpr (by exact_mod_cast h1)
  refine ⟨h2, uint16Of_cast _, ?_, encodeSetHumidity_eq h, rfl⟩
  rw [uint16Of_cast]
  have h3 : goTrunc (h * 256) % 65536 < 65536 := Int.emod_lt_of_pos _ (by norm_num)
  omega

/-- Witness for C10 at h = 256. -/
theorem setHumidity_wrap_modulo_witness :
    (256 : ℚ) ≤ 256 ∧
    (65536 ≤ goTrunc ((256 : ℚ) * 256) ∧
     (uint16Of ((256 : ℚ) * 256) : Int) = goTrunc ((256 : ℚ) * 256) % 65536 ∧
     (uint16Of ((256 : ℚ) * 256) : Int) ≠ goTrunc ((256 : ℚ) * 256) ∧
     encodeSetHumidity 256 =
       [0x20, 0x61, uint16Of ((256 : ℚ) * 256) / 256, uint16Of ((256 : ℚ) * 256) % 256,
        crc8Sensiron [uint16Of ((256 : ℚ) * 256) / 256, uint16Of ((256 : ℚ) * 256) % 256]] ∧
     setHumidity ⟨none⟩ 256 = .ok ()) :=
  ⟨le_refl _, setHumidity_wrap_modulo 256 (le_refl _)⟩

/-- C3: a successful measurement cycle publishes exactly the TVOC reading
(word 1, tagged parts-per-billion) followed by the CO2eq reading (word 0,
tagged parts-per-million), raw counts; and the loop trace is always a
concatenation of whole per-command emission blocks in order, so no
cycle's readings interleave with another's. -/
theorem measurement_cycle_order :
    (∀ (env : CmdEnv) (w0 w1 : Nat),
      env.ctxDoneAtLoop = false → env.writeErr = none → env.cancelledDuringWait = false →
      readWords 2 env.readResult = .ok [w0, w1] →
      env.ctxDoneBeforeTvocSend = false → env.ctxDoneBeforeCo2Send = false →
      handleCommandStep env .requestAirQuality =
        .next [⟨TotalVolatileOrganicCompounds, ⟨w1, .ppb⟩⟩,
               ⟨CarbonDioxideEquivalent, ⟨w0, .ppm⟩⟩]) ∧
    (∀ steps : List (CmdEnv × Command), ∃ k, k ≤ steps.length ∧
      (handleCommands steps).1 =
        ((steps.take k).map (fun sc => stepEmits sc.1 sc.2)).flatten) := by
  constructor
  · intro env w0 w1 h1 h2 h3 h4 h5 h6
    have hm : measureAirQuality ⟨env.writeErr, env.cancelledDuringWait, env.readResult⟩ =
        .ok (some ⟨⟨w0, .ppm⟩, ⟨w1, .ppb⟩⟩) := by
      simp [measureAirQuality, h2, h3, h4]
    simp [handleCommandStep, h1, hm, h5, h6]
  · intro steps
    induction steps with
    | nil => exact ⟨0, by simp, by simp [handleCommands]⟩
    | cons sc rest ih =>
      obtain ⟨env, c⟩ := sc
      cases hstep : handleCommandStep env c with
      | next emits =>
        obtain ⟨k, hk, htr⟩ := ih
        refine ⟨k + 1, by simpa using hk, ?_⟩
        simp [handleCommands, hstep, stepEmits, htr]
      | ret emits err =>
        refine ⟨1, by simp, ?_⟩
        simp [handleCommands, hstep, stepEmits]
      | panicked emits reason =>
        refine ⟨1, by simp, ?_⟩
        simp [handleCommands, hstep, stepEmits]

/-- Witness for C3 at the concrete all-good environment. -/
theorem measurement_cycle_order_witness :
    (envGood.ctxDoneAtLoop = false ∧ envGood.writeErr = none ∧
     envGood.cancelledDuringWait = false ∧
     readWords 2 envGood.readResult = .ok [1, 2] ∧
     envGood.ctxDoneBeforeTvocSend = false ∧ envGood.ctxDoneBeforeCo2Send = false) ∧
    handleCommandStep envGood .requestAirQuality =
      .next [⟨TotalVolatileOrganicCompounds, ⟨2, .ppb⟩⟩,
             ⟨CarbonDioxideEquivalent, ⟨1, .ppm⟩⟩] ∧
    (∃ k, k ≤ (List.length [(envGood, Command.requestAirQuality)]) ∧
      (handleCommands [(envGood, Command.requestAirQuality)]).1 =
        (([(envGood, Command.requestAirQuality)].take k).map
          (fun sc => stepEmits sc.1 sc.2)).flatten) :=
  ⟨⟨rfl, rfl, rfl, by decide, rfl, rfl⟩,
   measurement_cycle_order.1 envGood 1 2 rfl rfl rfl (by decide) rfl rfl,
   measurement_cycle_order.2 [(envGood, Command.requestAirQuality)]⟩

/-- C4: decoding fails exactly when some 3-byte group's transmitted
checksum differs from the recomputed CRC-8 of its two data bytes; the
error then carries the offending data bytes and both checksum values; and
the handler propagates that checksum mismatch unchanged as the root cause
inside its context wraps. -/
theorem readWords_checksum_mismatch :
    (∀ (n : Nat) (buf : List Nat), buf.length = 3 * n → (∀ b ∈ buf, b < 256) →
      ((∃ e, readWords n (.ok buf) = .error e) ↔
        ∃ i, i < n ∧
          checksum [buf.getD (3 * i) 0, buf.getD (3 * i + 1) 0] ≠ buf.getD (3 * i + 2) 0)) ∧
    (∀ (n : Nat) (buf : List Nat), buf.length = 3 * n → (∀ b ∈ buf, b < 256) →
      ∀ e, readWords n (.ok buf) = .error e →
        ∃ i, i < n ∧
          checksum [buf.getD (3 * i) 0, buf.getD (3 * i + 1) 0] ≠ buf.getD (3 * i + 2) 0 ∧
          e = .checksumMismatch [buf.getD (3 * i) 0, buf.getD (3 * i + 1) 0]
                (buf.getD (3 * i + 2) 0)
                (checksum [buf.getD (3 * i) 0, buf.getD (3 * i + 1) 0])) ∧
    (∀ (env : CmdEnv) (data : List Nat) (x y : Nat),
      env.ctxDoneAtLoop = false → env.writeErr = none → env.cancelledDuringWait = false →
      readWords 2 env.readResult = .error (.checksumMismatch data x y) →
      handleCommandStep env .requestAirQuality =
        .ret [] (some (.wrap "failed to measure air quality"
          (.wrap "failed to read air quality" (.checksumMismatch data x y)))) ∧
      rootCause (.wrap "failed to measure air quality"
          (.wrap "failed to read air quality" (.checksumMismatch data x y))) =
        .checksumMismatch data x y) := by
  refine ⟨?_, ?_, ?_⟩
  · intro n buf hlen hb
    rw [readWords_ok_buf n buf hlen hb]
    exact (parseWords_spec n buf hlen).1
  · intro n buf hlen hb
    rw [readWords_ok_buf n buf hlen hb]
    exact (parseWords_spec n buf hlen).2
  · intro env data x y h1 h2 h3 h4
    have hm : measureAirQuality ⟨env.writeErr, env.cancelledDuringWait, env.readResult⟩ =
        .error (.wrap "failed to read air quality" (.checksumMismatch data x y)) := by
      simp [measureAirQuality, h2, h3, h4]
    refine ⟨?_, rfl⟩
    simp [handleCommandStep, h1, hm]

/-- Witness for C4 on the bad-CRC test buffer. -/
theorem readWords_checksum_mismatch_witness :
    (List.length bufBad = 3 * 2 ∧ (∀ b ∈ bufBad, b < 256) ∧
      readWords 2 (.ok bufBad) = .error (.checksumMismatch [1, 2] 0 23) ∧
      envBad.ctxDoneAtLoop = false ∧ envBad.writeErr = none ∧
      envBad.cancelledDuringWait = false ∧
      readWords 2 envBad.readResult = .error (.checksumMismatch [1, 2] 0 23)) ∧
    (∃ i, i < 2 ∧
      checksum [bufBad.getD (3 * i) 0, bufBad.getD (3 * i + 1) 0] ≠ bufBad.getD (3 * i + 2) 0 ∧
      GoError.checksumMismatch [1, 2] 0 23 =
        .checksumMismatch [bufBad.getD (3 * i) 0, bufBad.getD (3 * i + 1) 0]
          (bufBad.getD (3 * i + 2) 0)
          (checksum [bufBad.getD (3 * i) 0, bufBad.getD (3 * i + 1) 0])) ∧
    (handleCommandStep envBad .requestAirQuality =
      .ret [] (some (.wrap "failed to measure air quality"
        (.wrap "failed to read air quality" (.checksumMismatch [1, 2] 0 23)))) ∧
     rootCause (.wrap "failed to measure air quality"
        (.wrap "failed to read air quality" (.checksumMismatch [1, 2] 0 23))) =
      .checksumMismatch [1, 2] 0 23) :=
  ⟨⟨by decide, by decide, by decide, rfl, rfl, rfl, by decide⟩,
   readWords_checksum_mismatch.2.1 2 bufBad (by decide) (by decide) _ (by decide),
   readWords_checksum_mismatch.2.2 envBad [1, 2] 0 23 rfl rfl rfl (by decide)⟩

/-- C5: when a session ends, a supplied policy answering true makes Run
return the session error; outer cancellation makes Run return nil after
one Open with the readings output closed; otherwise Run loops back to
Open; and with no policy Run never terminates while opens succeed and the
context stays live, reconnecting once per schedule entry. -/
theorem run_session_end_policy :
    (∀ (p : Option GoError → Bool) (env : RunEnv) (rest : List RunEnv),
      env.openErr = none → p env.sessionErr = true →
      sensorRun (some p) (env :: rest) = ⟨some env.sessionErr, 1, [env.sessionErr], true⟩) ∧
    (∀ (p : Option GoError → Bool) (env : RunEnv) (rest : List RunEnv),
      env.openErr = none → p env.sessionErr = false → env.ctxDoneAtWait = true →
      sensorRun (some p) (env :: rest) = ⟨some none, 1, [env.sessionErr], true⟩) ∧
    (∀ (env : RunEnv) (rest : List RunEnv),
      env.openErr = none → env.ctxDoneAtWait = true →
      sensorRun none (env :: rest) = ⟨some none, 1, [], true⟩) ∧
    (∀ (p : Option GoError → Bool) (env : RunEnv) (rest : List RunEnv),
      env.openErr = none → p env.sessionErr = false → env.ctxDoneAtWait = false →
      (sensorRun (some p) (env :: rest)).outcome = (sensorRun (some p) rest).outcome ∧
      (sensorRun (some p) (env :: rest)).openCalls = (sensorRun (some p) rest).openCalls + 1) ∧
    (∀ envs : List RunEnv,
      (∀ env ∈ envs, env.openErr = none ∧ env.ctxDoneAtWait = false) →
      (sensorRun none envs).outcome = none ∧ (sensorRun none envs).openCalls = envs.length) := by
  refine ⟨?_, ?_, ?_, ?_, ?_⟩
  · intro p env rest h1 h2
    simp [sensorRun, h1, h2]
  · intro p env rest h1 h2 h3
    simp [sensorRun, h1, h2, h3]
  · intro env rest h1 h2
    simp [sensorRun, h1, h2]
  · intro p env rest h1 h2 h3
    constructor <;> simp [sensorRun, h1, h2, h3]
  · intro envs
    induction envs with
    | nil => intro _; exact ⟨rfl, rfl⟩
    | cons env rest ih =>
      intro h
      obtain ⟨ho, hc⟩ := h env (by simp)
      obtain ⟨iho, ihl⟩ := ih (fun e he => h e (by simp [he]))
      constructor
      · simp [sensorRun, ho, hc, iho]
      · simp [sensorRun, ho, hc, ihl]

/-- Witness for C5 at concrete policies and schedules. -/
theorem run_session_end_policy_witness :
    (envSession.openErr = none ∧ policyTrue envSession.sessionErr = true ∧
      sensorRun (some policyTrue) [envSession] = ⟨some (some eBoom), 1, [some eBoom], true⟩) ∧
    (sensorRun (some policyFalse) [envSessionDone] = ⟨some none, 1, [some eBoom], true⟩) ∧
    (sensorRun none [envSessionDone] = ⟨some none, 1, [], true⟩) ∧
    ((sensorRun (some policyFalse) [envSession]).outcome =
        (sensorRun (some policyFalse) ([] : List RunEnv)).outcome ∧
     (sensorRun (some policyFalse) [envSession]).openCalls =
        (sensorRun (some policyFalse) ([] : List RunEnv)).openCalls + 1) ∧
    ((sensorRun none [envSession]).outcome = none ∧
     (sensorRun none [envSession]).openCalls = List.length [envSession]) :=
  ⟨⟨rfl, rfl, run_session_end_policy.1 policyTrue envSession [] rfl rfl⟩,
   run_session_end_policy.2.1 policyFalse envSessionDone [] rfl rfl rfl,
   run_session_end_policy.2.2.1 envSessionDone [] rfl rfl,
   run_session_end_policy.2.2.2.1 policyFalse envSession [] rfl rfl rfl,
   run_session_end_policy.2.2.2.2 [envSession] (by simp [envSession])⟩

/-- C6: an Open failure returns immediately from Run, wrapped as "failed
to open port", with exactly one Open call (no retry, no reconnect delay)
and no recovery-policy consultation. -/
theorem run_open_failure_fatal : ∀ (policy : Option (Option GoError → Bool)) (env : RunEnv)
    (rest : List RunEnv) (e : GoError), env.openErr = some e →
    sensorRun policy (env :: rest) =
      ⟨some (some (.wrap "failed to open port" e)), 1, [], true⟩ := by
  intro policy env rest e h
  simp [sensorRun, h]

/-- Witness for C6 at a concrete failing open. -/
theorem run_open_failure_fatal_witness :
    envOpenFail.openErr = some eBoom ∧
    sensorRun none [envOpenFail] =
      ⟨some (some (.wrap "failed to open port" eBoom)), 1, [], true⟩ :=
  ⟨rfl, run_open_failure_fatal none envOpenFail [] eBoom rfl⟩

/-- C8: encoding any sequence of 16-bit words as big-endian byte pairs
with correct CRC-8 checksum bytes and then decoding the buffer with
readWords succeeds and returns the original words in order. -/
theorem readWords_roundtrip : ∀ ws : List Nat, (∀ w ∈ ws, w < 65536) →
    readWords ws.length (.ok (encodeWords ws)) = .ok ws := by
  intro ws hw
  rw [readWords_ok_buf ws.length (encodeWords ws) (encodeWords_length ws)
    (encodeWords_bytes ws hw)]
  exact parseWords_encodeWords ws

/-- Witness for C8 on the two-word reply 0x0102, 0x0304. -/
theorem readWords_roundtrip_witness :
    (∀ w ∈ [(258 : Nat), 772], w < 65536) ∧
    readWords (List.length [(258 : Nat), 772]) (.ok (encodeWords [258, 772])) =
      .ok [258, 772] :=
  ⟨by decide, readWords_roundtrip [258, 772] (by decide)⟩

end SGP30
